import Mathlib

/-!
Shallow embedding of the pydantic schema layer of SimpleMicroservices
(`src/models/item.py`, `src/models/mcdonalds.py`).

Raw request bodies are modelled by an inductive `Json` of decoded values
(pydantic validates decoded python values: strings, nulls, lists, dicts,
and already-constructed `UUID` / `datetime` objects, the latter also
arising from `model_dump()` in python mode).  `UUID` values are modelled
as `Nat` (the 128-bit integer behind `uuid.UUID`), `datetime` values as
`Int` (a point on a totally ordered clock line).

Pydantic v2 semantics that the embedding mirrors:
  * a model validates a dict; unknown keys are ignored (the models set no
    `extra` config, so the default `extra="ignore"` applies);
  * a field declared with `Field(...)` (Ellipsis default) is required:
    a payload missing the key fails with a `missing` error, even when the
    annotation is `Optional[...]` (then an explicit `null` is accepted);
  * a field with `default_factory=f` uses `f()` when the key is absent,
    and the default is NOT validated (`validate_default` is off), so the
    factory value is stored as produced — in particular
    `McDonaldsBase.address` with `default_factory=list` stores the raw
    empty python list, not an `AddressBase`;
  * errors are collected across fields (not short-circuited), each with a
    location path; nested locations are prefixed by field name and, for
    sequences, the element index.

Non-determinism of `uuid4` / `datetime.utcnow` default factories is made
explicit: each validator takes the values those factories would return as
parameters (one per generated field; menu items get one per index).

`datetime` parsing from ISO strings and other lenient coercions are not
modelled; validators accept the constructor forms used here, which are
all forms pydantic itself accepts.
-/

namespace SimpleMicroservices

/-- A decoded request-body value (python value space, pre-validation). -/
inductive Json where
  | null
  | str (s : String)
  | uuid (u : Nat)
  | dt (t : Int)
  | arr (xs : List Json)
  | obj (fs : List (String × Json))

/-- One field-level validation error: location path and constraint name,
as in a pydantic `ValidationError` entry. -/
structure ValError where
  loc : List String
  msg : String

/-- Dict lookup on a decoded object; a duplicated key keeps the last
occurrence, as python dict construction does. -/
def jLookup (fs : List (String × Json)) (k : String) : Option Json :=
  fs.foldl (fun acc p => if p.1 = k then some p.2 else acc) none

/-- Validation outcome: a typed instance or the collected error list. -/
abbrev VResult (α : Type) := Except (List ValError) α

/-- Combine two field results, accumulating errors from both sides (pydantic
collects all field errors rather than stopping at the first). -/
def vmap2 {α β γ : Type} (f : α → β → γ) : VResult α → VResult β → VResult γ
  | .ok a, .ok b => .ok (f a b)
  | .error e, .ok _ => .error e
  | .ok _, .error e => .error e
  | .error e1, .error e2 => .error (e1 ++ e2)

/-- Whether a validation outcome is a success. -/
def isOk {α : Type} : VResult α → Bool
  | .ok _ => true
  | .error _ => false

/-- Re-root nested errors under an outer location path. -/
def pushLoc (p : List String) : VResult α → VResult α
  | .ok a => .ok a
  | .error es => .error (es.map fun e => ⟨p ++ e.loc, e.msg⟩)

/-- Value of a hex digit character, as `uuid.UUID` accepts them. -/
def hexDigitVal (c : Char) : Option Nat :=
  if c.isDigit then some (c.toNat - 48)
  else if 'a' ≤ c && c ≤ 'f' then some (c.toNat - 87)
  else if 'A' ≤ c && c ≤ 'F' then some (c.toNat - 55)
  else none

/-- Scan the canonical 36-character hyphenated UUID form, accumulating the
128-bit value; hyphens sit at offsets 8, 13, 18 and 23. -/
def uuidScan (i : Nat) (acc : Nat) : List Char → Option Nat
  | [] => if i = 36 then some acc else none
  | c :: cs =>
    if 36 ≤ i then none
    else if i = 8 ∨ i = 13 ∨ i = 18 ∨ i = 23 then
      if c = '-' then uuidScan (i + 1) acc cs else none
    else
      match hexDigitVal c with
      | some d => uuidScan (i + 1) (acc * 16 + d) cs
      | none => none

/-- Parse a UUID string (canonical hyphenated form) to its 128-bit value. -/
def parseUUID (s : String) : Option Nat := uuidScan 0 0 s.data

/-- Validate a UUID-typed field: accepts a `UUID` value or a well-formed
UUID string. -/
def vUUID (loc : List String) : Json → VResult Nat
  | .uuid u => .ok u
  | .str s =>
    match parseUUID s with
    | some u => .ok u
    | none => .error [⟨loc, "uuid_parsing"⟩]
  | _ => .error [⟨loc, "uuid_type"⟩]

/-- Validate a required `str` field. -/
def vStr (loc : List String) : Json → VResult String
  | .str s => .ok s
  | _ => .error [⟨loc, "string_type"⟩]

/-- Validate an `Optional[str]` value: `null` is `None`. -/
def vOptStr (loc : List String) : Json → VResult (Option String)
  | .null => .ok none
  | .str s => .ok (some s)
  | _ => .error [⟨loc, "string_type"⟩]

/-- Validate the elements of a `List[str]` field, indexing error paths. -/
def vStrElems (loc : List String) : Nat → List Json → VResult (List String)
  | _, [] => .ok []
  | i, j :: js =>
    vmap2 List.cons (vStr (loc ++ [toString i]) j) (vStrElems loc (i + 1) js)

/-- Validate a `List[str]` field. -/
def vStrList (loc : List String) : Json → VResult (List String)
  | .arr xs => vStrElems loc 0 xs
  | _ => .error [⟨loc, "list_type"⟩]

/-- Validate an `Optional[List[str]]` value: `null` is `None`. -/
def vOptStrList (loc : List String) : Json → VResult (Option (List String))
  | .null => .ok none
  | j => (vStrList loc j).map some

/-- Validate a `datetime` field: accepts a `datetime` value. -/
def vDT (loc : List String) : Json → VResult Int
  | .dt t => .ok t
  | _ => .error [⟨loc, "datetime_type"⟩]

/-! ## `src/models/item.py` -/

/-- `class ItemBase(BaseModel)`: `id: UUID` (default `uuid4()`),
`name: str` (required), `ingredients: List[str]` (default `list()`). -/
structure ItemBase where
  id : Nat
  name : String
  ingredients : List String

/-- Validation of an `ItemBase` payload.  `genId` is the value `uuid4()`
would return for this construction; it is used only when `id` is absent. -/
def validateItemBase (genId : Nat) : Json → VResult ItemBase
  | .obj fs =>
    vmap2 (fun p g => ItemBase.mk p.1 p.2 g)
      (vmap2 Prod.mk
        (match jLookup fs "id" with
         | some j => vUUID ["id"] j
         | none => .ok genId)
        (match jLookup fs "name" with
         | some j => vStr ["name"] j
         | none => .error [⟨["name"], "missing"⟩]))
      (match jLookup fs "ingredients" with
       | some j => vStrList ["ingredients"] j
       | none => .ok [])
  | _ => .error [⟨[], "model_type"⟩]

/-- `class ItemCreate(ItemBase)`: adds no fields, only schema examples. -/
def validateItemCreate (genId : Nat) : Json → VResult ItemBase :=
  validateItemBase genId

/-- `class ItemUpdate(BaseModel)`: `name: Optional[str] = Field(...)`,
`ingredients: Optional[List[str]]` (default `list()`). -/
structure ItemUpdate where
  name : Option String
  ingredients : Option (List String)

/-- Validation of an `ItemUpdate` payload.  `name` is declared with an
Ellipsis default (`Field(...)`), so the key is required even though a
supplied `null` is accepted; an absent `ingredients` takes the unvalidated
`list()` factory default, the empty list. -/
def validateItemUpdate : Json → VResult ItemUpdate
  | .obj fs =>
    vmap2 ItemUpdate.mk
      (match jLookup fs "name" with
       | some j => vOptStr ["name"] j
       | none => .error [⟨["name"], "missing"⟩])
      (match jLookup fs "ingredients" with
       | some j => vOptStrList ["ingredients"] j
       | none => .ok (some []))
  | _ => .error [⟨[], "model_type"⟩]

/-- `class ItemRead(ItemBase)`: adds `created_at`, `updated_at`, each with
a `datetime.utcnow` default factory. -/
structure ItemRead where
  id : Nat
  name : String
  ingredients : List String
  created_at : Int
  updated_at : Int

/-- Validation of an `ItemRead` payload.  `nowC` and `nowU` are the values
the two `datetime.utcnow` default factories would return (the `created_at`
factory runs first); each is used only when its field is absent. -/
def validateItemRead (genId : Nat) (nowC nowU : Int) : Json → VResult ItemRead
  | .obj fs =>
    vmap2 (fun (p : (Nat × String) × List String) (t : Int × Int) =>
        ItemRead.mk p.1.1 p.1.2 p.2 t.1 t.2)
      (vmap2 Prod.mk
        (vmap2 Prod.mk
          (match jLookup fs "id" with
           | some j => vUUID ["id"] j
           | none => .ok genId)
          (match jLookup fs "name" with
           | some j => vStr ["name"] j
           | none => .error [⟨["name"], "missing"⟩]))
        (match jLookup fs "ingredients" with
         | some j => vStrList ["ingredients"] j
         | none => .ok []))
      (vmap2 Prod.mk
        (match jLookup fs "created_at" with
         | some j => vDT ["created_at"] j
         | none => .ok nowC)
        (match jLookup fs "updated_at" with
         | some j => vDT ["updated_at"] j
         | none => .ok nowU))
  | _ => .error [⟨[], "model_type"⟩]

/-- `model_dump()` of an `ItemRead`, python mode: fields in declaration
order, `UUID` and `datetime` values kept as objects. -/
def dumpItemRead (r : ItemRead) : Json :=
  .obj [("id", .uuid r.id), ("name", .str r.name),
        ("ingredients", .arr (r.ingredients.map .str)),
        ("created_at", .dt r.created_at), ("updated_at", .dt r.updated_at)]

/-! ## `src/models/mcdonalds.py` (and the address model it imports) -/

/-- Modelled from the spec: `src/models/address.py` (class `AddressBase`),
imported by `mcdonalds.py`, is not in the corpus.  Spec §3.2: "an `id`
plus descriptive fields (street, city, state, postal code, country), all
required text", "structurally identical in pattern to Item" — so `id` is
a UUID generated by the system when absent. -/
structure AddressBase where
  id : Nat
  street : String
  city : String
  state : String
  postal_code : String
  country : String

/-- Modelled from the spec: validation of an `AddressBase` payload, the
Item pattern applied to the §3.2 field list (`genId` is the `uuid4()`
value used when `id` is absent; the descriptive fields are required
text). -/
def validateAddressBase (genId : Nat) : Json → VResult AddressBase
  | .obj fs =>
    vmap2 (fun (p : (Nat × String) × String) (q : (String × String) × String) =>
        AddressBase.mk p.1.1 p.1.2 p.2 q.1.1 q.1.2 q.2)
      (vmap2 Prod.mk
        (vmap2 Prod.mk
          (match jLookup fs "id" with
           | some j => vUUID ["id"] j
           | none => .ok genId)
          (match jLookup fs "street" with
           | some j => vStr ["street"] j
           | none => .error [⟨["street"], "missing"⟩]))
        (match jLookup fs "city" with
         | some j => vStr ["city"] j
         | none => .error [⟨["city"], "missing"⟩]))
      (vmap2 Prod.mk
        (vmap2 Prod.mk
          (match jLookup fs "state" with
           | some j => vStr ["state"] j
           | none => .error [⟨["state"], "missing"⟩])
          (match jLookup fs "postal_code" with
           | some j => vStr ["postal_code"] j
           | none => .error [⟨["postal_code"], "missing"⟩]))
        (match jLookup fs "country" with
         | some j => vStr ["country"] j
         | none => .error [⟨["country"], "missing"⟩]))
  | _ => .error [⟨[], "model_type"⟩]

/-- The value stored in `McDonaldsBase.address`.  The field is annotated
`AddressBase` but declared with `default_factory=list`; pydantic does not
validate defaults, so when the key is absent the attribute is the raw
empty python list produced by `list()`, not an `AddressBase`. -/
inductive AddressSlot where
  | addr (a : AddressBase)
  | unvalidatedEmptyList

/-- `class McDonaldsBase(BaseModel)`: `address: AddressBase` (with the
mismatched `default_factory=list`), `menu: List[ItemBase]` (default
`list()`).  No `id` field is declared on this variant. -/
structure McDonaldsBase where
  address : AddressSlot
  menu : List ItemBase

/-- Validate the elements of a `List[ItemBase]` field (`menu`): each
element is validated at its Base shape, errors indexed under `menu`;
`gen i` is the `uuid4()` value for the element at index `i`. -/
def vMenuElems (gen : Nat → Nat) : Nat → List Json → VResult (List ItemBase)
  | _, [] => .ok []
  | i, j :: js =>
    vmap2 List.cons (pushLoc ["menu", toString i] (validateItemBase (gen i) j))
      (vMenuElems gen (i + 1) js)

/-- Validate a `List[ItemBase]` value for the `menu` field. -/
def vMenuList (gen : Nat → Nat) : Json → VResult (List ItemBase)
  | .arr xs => vMenuElems gen 0 xs
  | _ => .error [⟨["menu"], "list_type"⟩]

/-- Validation of a `McDonaldsBase` payload.  `genAddrId` is the `uuid4()`
value for a generated nested address id, `genMenuIds i` the one for the
menu item at index `i`.  An absent `address` stores the unvalidated
`list()` default; an absent `menu` defaults to the empty list. -/
def validateMcDonaldsBase (genAddrId : Nat) (genMenuIds : Nat → Nat) :
    Json → VResult McDonaldsBase
  | .obj fs =>
    vmap2 McDonaldsBase.mk
      (match jLookup fs "address" with
       | some j => (pushLoc ["address"] (validateAddressBase genAddrId j)).map .addr
       | none => .ok .unvalidatedEmptyList)
      (match jLookup fs "menu" with
       | some j => vMenuList genMenuIds j
       | none => .ok [])
  | _ => .error [⟨[], "model_type"⟩]

/-- `class McDonaldsCreate(McDonaldsBase)`: adds no fields, only schema
examples. -/
def validateMcDonaldsCreate (genAddrId : Nat) (genMenuIds : Nat → Nat) :
    Json → VResult McDonaldsBase :=
  validateMcDonaldsBase genAddrId genMenuIds

/-- `class McDonaldsUpdate(BaseModel)`: `address: Optional[AddressBase]`
with default `None`, `menu: Optional[List[ItemBase]]` with
`default_factory=list`. -/
structure McDonaldsUpdate where
  address : Option AddressBase
  menu : Option (List ItemBase)

/-- Validation of a `McDonaldsUpdate` payload.  An absent `address` takes
its declared `None` default; an absent `menu` takes the unvalidated
`list()` factory default, the empty list (`Some []`, not `None`). -/
def validateMcDonaldsUpdate (genAddrId : Nat) (genMenuIds : Nat → Nat) :
    Json → VResult McDonaldsUpdate
  | .obj fs =>
    vmap2 McDonaldsUpdate.mk
      (match jLookup fs "address" with
       | some .null => .ok none
       | some j => (pushLoc ["address"] (validateAddressBase genAddrId j)).map some
       | none => .ok none)
      (match jLookup fs "menu" with
       | some .null => .ok none
       | some j => (vMenuList genMenuIds j).map some
       | none => .ok (some []))
  | _ => .error [⟨[], "model_type"⟩]

/-- `class McDonaldsRead(McDonaldsBase)`: adds `id` (default `uuid4()`),
`created_at` and `updated_at` (each with a `datetime.utcnow` default
factory). -/
structure McDonaldsRead where
  address : AddressSlot
  menu : List ItemBase
  id : Nat
  created_at : Int
  updated_at : Int

/-- Validation of a `McDonaldsRead` payload; `genId`, `nowC`, `nowU` are
the values the `uuid4` and the two `datetime.utcnow` default factories
would return, each used only when its field is absent. -/
def validateMcDonaldsRead (genAddrId : Nat) (genMenuIds : Nat → Nat)
    (genId : Nat) (nowC nowU : Int) : Json → VResult McDonaldsRead
  | .obj fs =>
    vmap2 (fun (p : AddressSlot × List ItemBase) (q : Nat × Int × Int) =>
        McDonaldsRead.mk p.1 p.2 q.1 q.2.1 q.2.2)
      (vmap2 Prod.mk
        (match jLookup fs "address" with
         | some j => (pushLoc ["address"] (validateAddressBase genAddrId j)).map .addr
         | none => .ok .unvalidatedEmptyList)
        (match jLookup fs "menu" with
         | some j => vMenuList genMenuIds j
         | none => .ok []))
      (vmap2 Prod.mk
        (match jLookup fs "id" with
         | some j => vUUID ["id"] j
         | none => .ok genId)
        (vmap2 Prod.mk
          (match jLookup fs "created_at" with
           | some j => vDT ["created_at"] j
           | none => .ok nowC)
          (match jLookup fs "updated_at" with
           | some j => vDT ["updated_at"] j
           | none => .ok nowU)))
  | _ => .error [⟨[], "model_type"⟩]

/-- `model_dump()` of an `AddressBase`, python mode. -/
def dumpAddressBase (a : AddressBase) : Json :=
  .obj [("id", .uuid a.id), ("street", .str a.street), ("city", .str a.city),
        ("state", .str a.state), ("postal_code", .str a.postal_code),
        ("country", .str a.country)]

/-- Dump of the `address` attribute: an `AddressBase` dumps as an object,
the unvalidated `list()` default dumps as the empty array. -/
def dumpAddressSlot : AddressSlot → Json
  | .addr a => dumpAddressBase a
  | .unvalidatedEmptyList => .arr []

/-- `model_dump()` of an `ItemBase`, python mode. -/
def dumpItemBase (b : ItemBase) : Json :=
  .obj [("id", .uuid b.id), ("name", .str b.name),
        ("ingredients", .arr (b.ingredients.map .str))]

/-- `model_dump()` of a `McDonaldsBase`, python mode: exactly the two
declared fields, in declaration order. -/
def dumpMcDonaldsBase (b : McDonaldsBase) : Json :=
  .obj [("address", dumpAddressSlot b.address),
        ("menu", .arr (b.menu.map dumpItemBase))]

/-- The keys of a dumped object. -/
def jsonKeys : Json → List String
  | .obj fs => fs.map (·.1)
  | _ => []

/-! ## General facts about the validation combinators -/

/-- A combined result is a success exactly when both sides are. -/
theorem isOk_vmap2 {α β γ : Type} (f : α → β → γ) (x : VResult α) (y : VResult β) :
    isOk (vmap2 f x y) = (isOk x && isOk y) := by
  cases x <;> cases y <;> rfl

/-- Inversion of a successful combined result. -/
theorem vmap2_eq_ok {α β γ : Type} {f : α → β → γ} {x : VResult α} {y : VResult β}
    {c : γ} (h : vmap2 f x y = .ok c) :
    ∃ a b, x = .ok a ∧ y = .ok b ∧ f a b = c := by
  cases x with
  | ok a =>
    cases y with
    | ok b =>
      refine ⟨a, b, rfl, rfl, ?_⟩
      simpa [vmap2] using h
    | error e => simp [vmap2] at h
  | error e => cases y <;> simp [vmap2] at h

/-- Validating the python-mode dump of a list of strings recovers it. -/
theorem vStrElems_map_str (loc : List String) (i : Nat) (xs : List String) :
    vStrElems loc i (xs.map .str) = .ok xs := by
  induction xs generalizing i with
  | nil => rfl
  | cons x xs ih => simp [vStrElems, vStr, vmap2, ih]

/-- When both timestamp keys are absent from an `ItemRead` payload, a
successful validation carries the two generated clock values. -/
theorem validateItemRead_ts_defaults {genId : Nat} {nowC nowU : Int}
    {fs : List (String × Json)} {r : ItemRead}
    (habsC : jLookup fs "created_at" = none)
    (habsU : jLookup fs "updated_at" = none)
    (h : validateItemRead genId nowC nowU (.obj fs) = .ok r) :
    r.created_at = nowC ∧ r.updated_at = nowU := by
  simp only [validateItemRead, habsC, habsU, vmap2] at h
  obtain ⟨a, b, _, hb, hfab⟩ := vmap2_eq_ok h
  injection hb with hb
  subst hb
  subst hfab
  exact ⟨rfl, rfl⟩

/-- When both timestamp keys are absent from a `McDonaldsRead` payload, a
successful validation carries the two generated clock values. -/
theorem validateMcDonaldsRead_ts_defaults {genAddrId : Nat} {genMenuIds : Nat → Nat}
    {genId : Nat} {nowC nowU : Int} {fs : List (String × Json)} {m : McDonaldsRead}
    (habsC : jLookup fs "created_at" = none)
    (habsU : jLookup fs "updated_at" = none)
    (h : validateMcDonaldsRead genAddrId genMenuIds genId nowC nowU (.obj fs) = .ok m) :
    m.created_at = nowC ∧ m.updated_at = nowU := by
  simp only [validateMcDonaldsRead, habsC, habsU, vmap2] at h
  obtain ⟨a, b, _, hb, hfab⟩ := vmap2_eq_ok h
  obtain ⟨q1, q2, _, hq2, hqq⟩ := vmap2_eq_ok hb
  injection hq2 with hq2
  subst hq2
  subst hqq
  subst hfab
  exact ⟨rfl, rfl⟩

/-- When the `id` key is absent from a `McDonaldsRead` payload, a
successful validation carries the generated id. -/
theorem validateMcDonaldsRead_id_default {genAddrId : Nat} {genMenuIds : Nat → Nat}
    {genId : Nat} {nowC nowU : Int} {fs : List (String × Json)} {m : McDonaldsRead}
    (habs : jLookup fs "id" = none)
    (h : validateMcDonaldsRead genAddrId genMenuIds genId nowC nowU (.obj fs) = .ok m) :
    m.id = genId := by
  simp only [validateMcDonaldsRead, habs] at h
  obtain ⟨a, b, _, hb, hfab⟩ := vmap2_eq_ok h
  obtain ⟨q1, q2, hq1, _, hqq⟩ := vmap2_eq_ok hb
  injection hq1 with hq1
  subst hq1
  subst hqq
  subst hfab
  rfl

/-! ## Claims -/

/-- C1: the spec says every Update-variant domain field is optional and an
Item Update payload omitting `name` validates; the code declares
`name: Optional[str] = Field(...)`, whose Ellipsis default makes the key
required, so the payload `{"ingredients": ["Big Mac Bun"]}` is rejected
with a `missing` error at `name`. -/
theorem c1_itemUpdate_rejects_absent_name :
    validateItemUpdate (Json.obj [("ingredients", Json.arr [Json.str "Big Mac Bun"])])
      = .error [⟨["name"], "missing"⟩] := rfl

/-- C2: a payload without the `ingredients` key that validates yields an
instance whose `ingredients` is the empty list — for `ItemBase`/`ItemCreate`
the declared `list()` default, and for `ItemUpdate` the (unvalidated)
`list()` default `some []`, never `none`. -/
theorem c2_absent_ingredients_default_empty (genId : Nat) (fs : List (String × Json))
    (habs : jLookup fs "ingredients" = none) :
    (∀ r : ItemBase, validateItemBase genId (.obj fs) = .ok r → r.ingredients = []) ∧
    (∀ u : ItemUpdate, validateItemUpdate (.obj fs) = .ok u → u.ingredients = some []) := by
  constructor
  · intro r h
    simp only [validateItemBase, habs] at h
    obtain ⟨a, b, _, hb, hfab⟩ := vmap2_eq_ok h
    injection hb with hb
    subst hb
    subst hfab
    rfl
  · intro u h
    simp only [validateItemUpdate, habs] at h
    obtain ⟨a, b, _, hb, hfab⟩ := vmap2_eq_ok h
    injection hb with hb
    subst hb
    subst hfab
    rfl

/-- C2 witness: the Create payload `{"name": "Big Mac"}` and the Update
payload `{"name": "Big Mac"}` both validate with empty `ingredients`. -/
theorem c2_absent_ingredients_default_empty_witness :
    validateItemBase 7 (Json.obj [("name", Json.str "Big Mac")])
      = .ok ⟨7, "Big Mac", []⟩ ∧
    (ItemBase.mk 7 "Big Mac" []).ingredients = [] ∧
    validateItemUpdate (Json.obj [("name", Json.str "Big Mac")])
      = .ok ⟨some "Big Mac", some []⟩ ∧
    (ItemUpdate.mk (some "Big Mac") (some [])).ingredients = some [] :=
  ⟨rfl,
   (c2_absent_ingredients_default_empty 7 [("name", Json.str "Big Mac")] rfl).1 _ rfl,
   rfl,
   (c2_absent_ingredients_default_empty 7 [("name", Json.str "Big Mac")] rfl).2 _ rfl⟩

/-- C3 counterexample: validating the Create payload
`{"id": "550e8400-e29b-41d4-a716-446655440000", "name": "Big Mac"}` while
`uuid4()` would return `5` succeeds with the client-supplied id, which is
distinct from the generated one — so a client-supplied id does determine
the identity of the validated instance. -/
theorem c3_client_id_kept_cex :
    validateItemCreate 5
      (Json.obj [("id", Json.str "550e8400-e29b-41d4-a716-446655440000"),
                 ("name", Json.str "Big Mac")])
      = .ok ⟨0x550e8400e29b41d4a716446655440000, "Big Mac", []⟩ ∧
    (0x550e8400e29b41d4a716446655440000 : Nat) ≠ 5 :=
  ⟨rfl, by decide⟩

/-- C3 amended: on Create the id is system-generated only when absent from
the payload; a supplied (well-formed) id is accepted and becomes the
instance id. -/
theorem c3_create_id_generated_when_absent (genId : Nat) (fs : List (String × Json))
    (r : ItemBase) :
    (jLookup fs "id" = none →
      validateItemCreate genId (.obj fs) = .ok r → r.id = genId) ∧
    (∀ u : Nat, jLookup fs "id" = some (.uuid u) →
      validateItemCreate genId (.obj fs) = .ok r → r.id = u) := by
  constructor
  · intro habs h
    simp only [validateItemCreate, validateItemBase, habs] at h
    obtain ⟨a, b, ha, _, hfab⟩ := vmap2_eq_ok h
    obtain ⟨a1, a2, ha1, _, haa⟩ := vmap2_eq_ok ha
    injection ha1 with ha1
    subst ha1
    subst haa
    subst hfab
    rfl
  · intro u hsup h
    simp only [validateItemCreate, validateItemBase, hsup, vUUID] at h
    obtain ⟨a, b, ha, _, hfab⟩ := vmap2_eq_ok h
    obtain ⟨a1, a2, ha1, _, haa⟩ := vmap2_eq_ok ha
    injection ha1 with ha1
    subst ha1
    subst haa
    subst hfab
    rfl

/-- C3 amended witness: with `uuid4()` returning `5`, a payload without
`id` gets id `5`, and a payload supplying id `9` gets id `9`. -/
theorem c3_create_id_generated_when_absent_witness :
    (ItemBase.mk 5 "Big Mac" []).id = 5 ∧ (ItemBase.mk 9 "Big Mac" []).id = 9 :=
  ⟨(c3_create_id_generated_when_absent 5 [("name", Json.str "Big Mac")]
      ⟨5, "Big Mac", []⟩).1 rfl rfl,
   (c3_create_id_generated_when_absent 5
      [("id", Json.uuid 9), ("name", Json.str "Big Mac")] ⟨9, "Big Mac", []⟩).2 9 rfl rfl⟩

/-- C6 counterexample: the payload `{"name": ""}` validates successfully —
`name: str = Field(...)` carries no non-empty constraint, so the empty
string is accepted. -/
theorem c6_empty_name_accepted_cex :
    validateItemBase 3 (Json.obj [("name", Json.str "")]) = .ok ⟨3, "", []⟩ := rfl

/-- C6 amended: `name` is required text — a payload without the key fails
validation — but any string value is accepted, including the empty
string. -/
theorem c6_name_required_any_string (genId : Nat) (fs : List (String × Json))
    (s : String) :
    (jLookup fs "name" = none → isOk (validateItemBase genId (.obj fs)) = false) ∧
    validateItemBase genId (.obj [("name", .str s)]) = .ok ⟨genId, s, []⟩ := by
  constructor
  · intro habs
    simp only [validateItemBase, habs]
    rw [isOk_vmap2, isOk_vmap2]
    simp [isOk]
  · rfl

/-- C6 amended witness: `{"ingredients": []}` is rejected (no name);
`{"name": ""}` is accepted. -/
theorem c6_name_required_any_string_witness :
    isOk (validateItemBase 3 (Json.obj [("ingredients", Json.arr [])])) = false ∧
    validateItemBase 3 (Json.obj [("name", Json.str "")]) = .ok ⟨3, "", []⟩ :=
  ⟨(c6_name_required_any_string 3 [("ingredients", Json.arr [])] "").1 rfl,
   (c6_name_required_any_string 3 [("ingredients", Json.arr [])] "").2⟩

/-- C9: the python-mode dump of any `ItemRead` instance revalidates
through the `ItemBase` validator (extra keys `created_at`/`updated_at`
are ignored), recovering the Base projection of the instance — Read is
field-wise a superset of Base. -/
theorem c9_read_roundtrips_through_base (genId : Nat) (r : ItemRead) :
    validateItemBase genId (dumpItemRead r) = .ok ⟨r.id, r.name, r.ingredients⟩ := by
  have h : validateItemBase genId (dumpItemRead r)
      = vmap2 (fun p g => ItemBase.mk p.1 p.2 g)
          (vmap2 Prod.mk (.ok r.id) (.ok r.name))
          (vStrList ["ingredients"] (.arr (r.ingredients.map .str))) := rfl
  rw [h]
  simp [vStrList, vStrElems_map_str, vmap2]

/-- C9 witness: a concrete `ItemRead` dump revalidates through Base. -/
theorem c9_read_roundtrips_through_base_witness :
    validateItemBase 5 (dumpItemRead ⟨9, "Big Mac", ["Mac Sauce", "Bun"], 100, 200⟩)
      = .ok ⟨9, "Big Mac", ["Mac Sauce", "Bun"]⟩ :=
  c9_read_roundtrips_through_base 5 ⟨9, "Big Mac", ["Mac Sauce", "Bun"], 100, 200⟩

/-- C10: in `McDonaldsUpdate`, omitting `address` yields its declared
`None` default, while omitting `menu` yields the `list()` factory default
`some []` — the two fields have different omission semantics. -/
theorem c10_mcdonaldsUpdate_asymmetric_defaults (genAddrId : Nat)
    (genMenuIds : Nat → Nat) (fs : List (String × Json)) :
    (jLookup fs "address" = none →
      ∀ u : McDonaldsUpdate,
        validateMcDonaldsUpdate genAddrId genMenuIds (.obj fs) = .ok u →
          u.address = none) ∧
    (jLookup fs "menu" = none →
      ∀ u : McDonaldsUpdate,
        validateMcDonaldsUpdate genAddrId genMenuIds (.obj fs) = .ok u →
          u.menu = some []) := by
  constructor
  · intro habs u h
    simp only [validateMcDonaldsUpdate, habs] at h
    obtain ⟨a, b, ha, _, hfab⟩ := vmap2_eq_ok h
    injection ha with ha
    subst ha
    subst hfab
    rfl
  · intro habs u h
    simp only [validateMcDonaldsUpdate, habs] at h
    obtain ⟨a, b, _, hb, hfab⟩ := vmap2_eq_ok h
    injection hb with hb
    subst hb
    subst hfab
    rfl

/-- C10 witness: the empty Update payload validates to
`address = none, menu = some []`. -/
theorem c10_mcdonaldsUpdate_asymmetric_defaults_witness :
    validateMcDonaldsUpdate 1 (fun _ => 2) (Json.obj []) = .ok ⟨none, some []⟩ ∧
    (McDonaldsUpdate.mk none (some [])).address = none ∧
    (McDonaldsUpdate.mk none (some [])).menu = some [] :=
  ⟨rfl,
   (c10_mcdonaldsUpdate_asymmetric_defaults 1 (fun _ => 2) []).1 rfl _ rfl,
   (c10_mcdonaldsUpdate_asymmetric_defaults 1 (fun _ => 2) []).2 rfl _ rfl⟩

/-- C4 counterexample: a validated Location Create instance carries no
`id` at all — even when the payload supplies one, the validated instance
dumps to exactly the keys `address` and `menu` (`McDonaldsBase` declares
no `id` field; only `McDonaldsRead` adds one). -/
theorem c4_location_base_has_no_id_cex :
    validateMcDonaldsCreate 1 (fun _ => 2)
      (Json.obj [("id", Json.uuid 9),
                 ("address", Json.obj [("street", Json.str "600 W 125th St"),
                                       ("city", Json.str "New York"),
                                       ("state", Json.str "NY"),
                                       ("postal_code", Json.str "10027"),
                                       ("country", Json.str "US")]),
                 ("menu", Json.arr [])])
      = .ok ⟨.addr ⟨1, "600 W 125th St", "New York", "NY", "10027", "US"⟩, []⟩ ∧
    "id" ∉ jsonKeys (dumpMcDonaldsBase
      ⟨.addr ⟨1, "600 W 125th St", "New York", "NY", "10027", "US"⟩, []⟩) :=
  ⟨rfl, by decide⟩

/-- C4 amended: the Location Base/Create variants carry no `id` field
(their dumped keys are exactly `address` and `menu`); only the Read
variant carries an `id`, with a system-generated default used when the
key is absent. -/
theorem c4_location_id_only_on_read (genAddrId genId : Nat)
    (genMenuIds : Nat → Nat) (nowC nowU : Int) (fs : List (String × Json)) :
    (∀ b : McDonaldsBase, jsonKeys (dumpMcDonaldsBase b) = ["address", "menu"]) ∧
    (jLookup fs "id" = none →
      ∀ m : McDonaldsRead,
        validateMcDonaldsRead genAddrId genMenuIds genId nowC nowU (.obj fs) = .ok m →
          m.id = genId) :=
  ⟨fun _ => rfl, fun habs _ h => validateMcDonaldsRead_id_default habs h⟩

/-- C4 amended witness: a Base instance dumps without `id`; the empty Read
payload validates with the generated id `4`. -/
theorem c4_location_id_only_on_read_witness :
    jsonKeys (dumpMcDonaldsBase ⟨.unvalidatedEmptyList, []⟩) = ["address", "menu"] ∧
    validateMcDonaldsRead 1 (fun _ => 2) 4 100 200 (Json.obj [])
      = .ok ⟨.unvalidatedEmptyList, [], 4, 100, 200⟩ ∧
    (McDonaldsRead.mk .unvalidatedEmptyList [] 4 100 200).id = 4 :=
  ⟨(c4_location_id_only_on_read 1 4 (fun _ => 2) 100 200 []).1 _,
   rfl,
   (c4_location_id_only_on_read 1 4 (fun _ => 2) 100 200 []).2 rfl _ rfl⟩

/-- C5: the spec says every Location instance embeds exactly one
well-formed Address; but `address: AddressBase` is declared with
`default_factory=list` and pydantic does not validate defaults, so both
the empty payload and `{"menu": []}` validate to an instance whose
`address` attribute is the raw empty python list, not an Address. -/
theorem c5_default_address_is_raw_list :
    validateMcDonaldsBase 1 (fun _ => 2) (Json.obj [])
      = .ok ⟨.unvalidatedEmptyList, []⟩ ∧
    validateMcDonaldsBase 1 (fun _ => 2) (Json.obj [("menu", Json.arr [])])
      = .ok ⟨.unvalidatedEmptyList, []⟩ :=
  ⟨rfl, rfl⟩

/-- C7 counterexample: the Read-shaped payload `{"name": "Big Mac"}`,
omitting both timestamps, validates successfully with the two
`datetime.utcnow` factory values (here 100 and 200) — it is not
rejected. -/
theorem c7_read_accepts_absent_timestamps_cex :
    validateItemRead 3 100 200 (Json.obj [("name", Json.str "Big Mac")])
      = .ok ⟨3, "Big Mac", [], 100, 200⟩ := rfl

/-- C7 amended: the Read-variant timestamps are not required — each has a
current-UTC default factory, so a payload omitting them validates and the
instance carries the generated clock values (for both `ItemRead` and
`McDonaldsRead`). -/
theorem c7_read_timestamps_default_generated (genId genAddrId genId2 : Nat)
    (genMenuIds : Nat → Nat) (nowC nowU : Int) (fs gs : List (String × Json)) :
    (jLookup fs "created_at" = none → jLookup fs "updated_at" = none →
      ∀ r : ItemRead, validateItemRead genId nowC nowU (.obj fs) = .ok r →
        r.created_at = nowC ∧ r.updated_at = nowU) ∧
    (jLookup gs "created_at" = none → jLookup gs "updated_at" = none →
      ∀ m : McDonaldsRead,
        validateMcDonaldsRead genAddrId genMenuIds genId2 nowC nowU (.obj gs) = .ok m →
          m.created_at = nowC ∧ m.updated_at = nowU) :=
  ⟨fun h1 h2 _ h => validateItemRead_ts_defaults h1 h2 h,
   fun h1 h2 _ h => validateMcDonaldsRead_ts_defaults h1 h2 h⟩

/-- C7 amended witness: `{"name": "Big Mac"}` as `ItemRead` and the empty
payload as `McDonaldsRead` validate with the generated timestamps. -/
theorem c7_read_timestamps_default_generated_witness :
    ((ItemRead.mk 3 "Big Mac" [] 100 200).created_at = 100 ∧
      (ItemRead.mk 3 "Big Mac" [] 100 200).updated_at = 200) ∧
    ((McDonaldsRead.mk .unvalidatedEmptyList [] 4 100 200).created_at = 100 ∧
      (McDonaldsRead.mk .unvalidatedEmptyList [] 4 100 200).updated_at = 200) :=
  ⟨(c7_read_timestamps_default_generated 3 1 4 (fun _ => 2) 100 200
      [("name", Json.str "Big Mac")] []).1 rfl rfl _ rfl,
   (c7_read_timestamps_default_generated 3 1 4 (fun _ => 2) 100 200
      [("name", Json.str "Big Mac")] []).2 rfl rfl _ rfl⟩

/-- C8 counterexample: a Read payload supplying `created_at = 200` and
`updated_at = 100` validates successfully, producing an instance with
`updated_at < created_at` — validation enforces no ordering between the
two timestamps. -/
theorem c8_unordered_timestamps_accepted_cex :
    validateItemRead 3 0 0
      (Json.obj [("name", Json.str "Big Mac"), ("created_at", Json.dt 200),
                 ("updated_at", Json.dt 100)])
      = .ok ⟨3, "Big Mac", [], 200, 100⟩ ∧
    ¬ ((ItemRead.mk 3 "Big Mac" [] 200 100).created_at
        ≤ (ItemRead.mk 3 "Big Mac" [] 200 100).updated_at) :=
  ⟨rfl, by decide⟩

/-- C8 amended: validation does not enforce `updated_at ≥ created_at` for
client-supplied timestamps; the invariant does hold for any instance whose
timestamps were both omitted and hence default-generated, provided the two
successive clock reads are non-decreasing (for both `ItemRead` and
`McDonaldsRead`). -/
theorem c8_timestamps_ordered_when_defaulted (genId genAddrId genId2 : Nat)
    (genMenuIds : Nat → Nat) (nowC nowU : Int) (fs gs : List (String × Json))
    (hclk : nowC ≤ nowU) :
    (jLookup fs "created_at" = none → jLookup fs "updated_at" = none →
      ∀ r : ItemRead, validateItemRead genId nowC nowU (.obj fs) = .ok r →
        r.created_at ≤ r.updated_at) ∧
    (jLookup gs "created_at" = none → jLookup gs "updated_at" = none →
      ∀ m : McDonaldsRead,
        validateMcDonaldsRead genAddrId genMenuIds genId2 nowC nowU (.obj gs) = .ok m →
          m.created_at ≤ m.updated_at) := by
  constructor
  · intro h1 h2 r h
    obtain ⟨hc, hu⟩ := validateItemRead_ts_defaults h1 h2 h
    rw [hc, hu]
    exact hclk
  · intro h1 h2 m h
    obtain ⟨hc, hu⟩ := validateMcDonaldsRead_ts_defaults h1 h2 h
    rw [hc, hu]
    exact hclk

/-- C8 amended witness: with clock reads 100 then 200, the defaulted
instances satisfy the ordering. -/
theorem c8_timestamps_ordered_when_defaulted_witness :
    (ItemRead.mk 3 "Big Mac" [] 100 200).created_at
      ≤ (ItemRead.mk 3 "Big Mac" [] 100 200).updated_at ∧
    (McDonaldsRead.mk .unvalidatedEmptyList [] 4 100 200).created_at
      ≤ (McDonaldsRead.mk .unvalidatedEmptyList [] 4 100 200).updated_at :=
  ⟨(c8_timestamps_ordered_when_defaulted 3 1 4 (fun _ => 2) 100 200
      [("name", Json.str "Big Mac")] [] (by decide)).1 rfl rfl _ rfl,
   (c8_timestamps_ordered_when_defaulted 3 1 4 (fun _ => 2) 100 200
      [("name", Json.str "Big Mac")] [] (by decide)).2 rfl rfl _ rfl⟩

end SimpleMicroservices
